import Mathlib

/-!
Verification of `tools/quick_view.py`, a geospatial inspection utility
(CRS summary, static composite plot, interactive folium export) over a
fixed set of municipal vector layers and orthophoto raster tiles.

The embedding models:
- a `GeoDataFrame` as an optional EPSG code, a designated geometry column
  (a list of points with rational coordinates), and attribute columns;
- reprojection (`to_crs`) as an uninterpreted coordinate map supplied as a
  parameter `reproj : ℕ → ℕ → Point → Point` (source EPSG, target EPSG);
- warnings printed on stderr as explicit lists of strings / events;
- raster handles via an explicit event trace (opened / closed).
-/

/-- A planar or geographic coordinate pair (x / longitude, y / latitude). -/
abbrev Point : Type := ℚ × ℚ

/-- Pandas column dtypes that matter to `_sanitize_attributes`:
`datetime64` (any datetime64 dtype), `timedelta64`, and everything else
(object, numeric, ...), collapsed to `objectDtype`. -/
inductive Dtype where
  | datetime64
  | timedelta64
  | objectDtype
deriving DecidableEq, Repr

/-- An attribute cell value. `vDatetime` models both `datetime.datetime` and
`pd.Timestamp` (fields: year, month, day, hour, minute, second);
`vTimedelta` models `pd.Timedelta` (days, seconds); `vStr`, `vInt` and
`vNone` model the remaining JSON-relevant scalars. -/
inductive Value where
  | vDatetime (y mo d h mi s : ℕ)
  | vTimedelta (d s : ℕ)
  | vStr (s : String)
  | vInt (n : ℤ)
  | vNone
deriving DecidableEq, Repr

instance : Inhabited Value := ⟨Value.vNone⟩

/-- A named attribute column: name, pandas dtype, one value per row. -/
structure Column where
  name : String
  dtype : Dtype
  values : List Value
deriving DecidableEq, Repr

instance : Inhabited Column := ⟨⟨"", Dtype.objectDtype, []⟩⟩

/-- The vector-layer data model: a CRS (possibly absent, as an EPSG code),
a designated geometry column, and the non-geometry attribute columns. -/
structure GeoDataFrame where
  crs : Option ℕ
  geometryName : String
  geometry : List Point
  columns : List Column
deriving DecidableEq, Repr

namespace GeoDataFrame

/-- `gdf.empty`: true when the frame has no rows. -/
def empty (g : GeoDataFrame) : Bool := g.geometry.isEmpty

/-- `len(gdf)`: the number of rows. -/
def len (g : GeoDataFrame) : ℕ := g.geometry.length

end GeoDataFrame

/-- `gpd.GeoDataFrame(geometry=[])`: the empty frame used for absent files
in `export_folium_map` (no CRS, no rows, no attribute columns). -/
def emptyGDF : GeoDataFrame := ⟨none, "geometry", [], []⟩

/-- The working projection `TARGET_EPSG = 25832`. -/
def TARGET_EPSG : ℕ := 25832

/-- `gdf.to_crs(epsg=target)`: reprojects every geometry with the supplied
coordinate map and sets the CRS to the target; attributes are untouched. -/
def to_crs (reproj : ℕ → ℕ → Point → Point) (g : GeoDataFrame) (src target : ℕ) :
    GeoDataFrame :=
  { g with crs := some target, geometry := g.geometry.map (reproj src target) }

/-- `_load_vector` (quick_view.py:41-49): reads a layer, warns when the
frame is empty, warns and passes through when the CRS is absent, reprojects
to `TARGET_EPSG` when the CRS differs, passes through when it already
matches.  Returns the frame together with the warnings printed. -/
def load_vector (reproj : ℕ → ℕ → Point → Point) (gdf : GeoDataFrame) :
    GeoDataFrame × List String :=
  let w1 : List String := if gdf.empty then ["[warn] empty layer"] else []
  match gdf.crs with
  | none => (gdf, w1 ++ ["[warn] missing CRS on layer"])
  | some e =>
      if e ≠ TARGET_EPSG then (to_crs reproj gdf e TARGET_EPSG, w1)
      else (gdf, w1)

section Mosaic

/-- A raster tile source: an identifier standing for its path/handle and
its CRS (possibly absent). -/
structure Tile where
  id : ℕ
  crs : Option ℕ
deriving DecidableEq, Repr

/-- Observable events of `_orthophoto_mosaic`: opening a raster handle,
closing one, and the two CRS warnings. -/
inductive Ev where
  | opened (id : ℕ)
  | closedHandle (id : ℕ)
  | warnMissingCRS (id : ℕ)
  | warnWrongCRS (id : ℕ)
deriving DecidableEq, Repr

/-- The warnings the loop body of `_orthophoto_mosaic` prints for one tile
(quick_view.py:63-66): one warning when the CRS is missing, one when it
differs from `TARGET_EPSG`, none otherwise. -/
def tileWarnEvents (tif : Tile) : List Ev :=
  match tif.crs with
  | none => [Ev.warnMissingCRS tif.id]
  | some e => if e ≠ TARGET_EPSG then [Ev.warnWrongCRS tif.id] else []

/-- The open/warn loop of `_orthophoto_mosaic` (quick_view.py:60-67): each
tile is opened (event), possibly warned about, and appended to `sources`
regardless of the warning.  Written by recursion on the tile list; the
resulting event list and source list are those the Python loop builds by
repeated appending. -/
def openPhase : List Tile → List Ev × List Tile
  | [] => ([], [])
  | tif :: rest =>
      let r := openPhase rest
      (Ev.opened tif.id :: (tileWarnEvents tif ++ r.1), tif :: r.2)

/-- `rasterio.merge.merge(sources)`: modelled as returning the list of
sources included in the mosaic (the claims under proof concern which
sources are merged and handle lifecycle, not pixel content). -/
def rasterMerge (sources : List Tile) : List Tile := sources

/-- `_orthophoto_mosaic` (quick_view.py:59-73): opens every tile, returns
`none` when there are no sources, otherwise merges, closes every opened
handle and returns the mosaic.  The second component is the full event
trace. -/
def orthophoto_mosaic (tifs : List Tile) : Option (List Tile) × List Ev :=
  let op := openPhase tifs
  let sources := op.2
  if sources.isEmpty then (none, op.1)
  else
    let mosaic := rasterMerge sources
    (some mosaic, op.1 ++ sources.map (fun s => Ev.closedHandle s.id))

end Mosaic

section Sampling

/-- One step of numpy's PCG-style generator, modelled as a linear
congruential generator on 31 bits; any fixed deterministic generator is a
faithful model of `random_state=42` (fixed seed ⇒ fixed stream). -/
def lcg (s : ℕ) : ℕ := (1103515245 * s + 12345) % 2147483648

/-- Selection without replacement: draws `n` indices from the pool
`avail`, each draw removing the chosen element, driven by the generator
state. Returns fewer than `n` only when the pool runs dry. -/
def pickAux : ℕ → ℕ → List ℕ → List ℕ
  | _, 0, _ => []
  | seed, n + 1, avail =>
      if avail.isEmpty then []
      else
        let s := lcg seed
        let k := s % avail.length
        avail.getD k 0 :: pickAux s n (avail.eraseIdx k)

/-- The row indices `gdf.sample(n, random_state=seed)` keeps. -/
def pickIndices (seed n rows : ℕ) : List ℕ :=
  pickAux seed n (List.range rows)

/-- `gdf.sample(n, random_state=seed)`: keeps the sampled rows of the
geometry column and of every attribute column (same index set for all),
CRS unchanged. -/
def gdfSample (g : GeoDataFrame) (n seed : ℕ) : GeoDataFrame :=
  let idxs := pickIndices seed n g.len
  { g with
    geometry := idxs.map (fun i => g.geometry.getD i default)
    columns := g.columns.map (fun c =>
      { c with values := idxs.map (fun i => c.values.getD i default) }) }

/-- The tree-sampling policy shared verbatim by `plot_layers`
(quick_view.py:109-110) and `export_folium_map` (quick_view.py:195-196):
`if max_trees and len(trees) > max_trees: trees = trees.sample(max_trees,
random_state=42)`.  Python truthiness of the int cap: `0` disables the
branch. -/
def applyTreeSampling (max_trees : ℕ) (trees : GeoDataFrame) : GeoDataFrame :=
  if max_trees ≠ 0 ∧ trees.len > max_trees then gdfSample trees max_trees 42
  else trees

end Sampling

section StaticComposer

/-- `gdf.iloc[:5000]`: the first 5000 rows of geometry and of every
attribute column. -/
def ilocHead (g : GeoDataFrame) (n : ℕ) : GeoDataFrame :=
  { g with
    geometry := g.geometry.take n
    columns := g.columns.map (fun c => { c with values := c.values.take n }) }

/-- The tree branch of `plot_layers` (quick_view.py:107-113): when the file
exists (input `some`), load, sample to the cap, append the layer; when the
file is absent (input `none`), print a missing-layer warning. -/
def treeStep (reproj : ℕ → ℕ → Point → Point) (tree : Option GeoDataFrame)
    (max_trees : ℕ) : List GeoDataFrame × List String :=
  match tree with
  | some t =>
      let lv := load_vector reproj t
      ([applyTreeSampling max_trees lv.1], lv.2)
  | none => ([], ["[warn] missing tree layer"])

/-- The parcel branch of `plot_layers` (quick_view.py:115-117): when the
file exists, load and truncate to the first 5000 rows; an absent file adds
nothing — no warning is printed. -/
def parcelStep (reproj : ℕ → ℕ → Point → Point) (parcel : Option GeoDataFrame) :
    List GeoDataFrame × List String :=
  match parcel with
  | some p =>
      let lv := load_vector reproj p
      ([ilocHead lv.1 5000], lv.2)
  | none => ([], [])

/-- The building branch of `plot_layers` (quick_view.py:118-120); same
shape as the parcel branch, no warning on absence. -/
def buildingStep (reproj : ℕ → ℕ → Point → Point) (building : Option GeoDataFrame) :
    List GeoDataFrame × List String :=
  match building with
  | some b =>
      let lv := load_vector reproj b
      ([ilocHead lv.1 5000], lv.2)
  | none => ([], [])

/-- The street branch of `plot_layers` (quick_view.py:121-123); same shape
as the parcel branch, no warning on absence. -/
def streetStep (reproj : ℕ → ℕ → Point → Point) (street : Option GeoDataFrame) :
    List GeoDataFrame × List String :=
  match street with
  | some s =>
      let lv := load_vector reproj s
      ([ilocHead lv.1 5000], lv.2)
  | none => ([], [])

/-- The layer-collection stage of `plot_layers` (quick_view.py:99-123): the
four branches run in order; `layers` accumulates the present layers and the
warnings accumulate on stderr.  `none` stands for an absent file. -/
def plot_layers_collect (reproj : ℕ → ℕ → Point → Point)
    (tree parcel building street : Option GeoDataFrame) (max_trees : ℕ) :
    List GeoDataFrame × List String :=
  let t := treeStep reproj tree max_trees
  let p := parcelStep reproj parcel
  let b := buildingStep reproj building
  let s := streetStep reproj street
  (t.1 ++ p.1 ++ b.1 ++ s.1, t.2 ++ p.2 ++ b.2 ++ s.2)

end StaticComposer

section InteractiveComposer

/-- A bounding box in `total_bounds` order: minx, miny, maxx, maxy. -/
structure Box where
  minx : ℚ
  miny : ℚ
  maxx : ℚ
  maxy : ℚ
deriving DecidableEq, Repr

/-- Minimum of a list of rationals (0 on the empty list; callers only use
it on non-empty geometry, mirroring `total_bounds` being NaN on empty). -/
def listMin : List ℚ → ℚ
  | [] => 0
  | x :: xs => xs.foldl min x

/-- Maximum of a list of rationals (0 on the empty list). -/
def listMax : List ℚ → ℚ
  | [] => 0
  | x :: xs => xs.foldl max x

/-- `gdf.total_bounds`: the envelope of the geometry column. -/
def totalBounds (g : GeoDataFrame) : Box :=
  { minx := listMin (g.geometry.map Prod.fst)
    miny := listMin (g.geometry.map Prod.snd)
    maxx := listMax (g.geometry.map Prod.fst)
    maxy := listMax (g.geometry.map Prod.snd) }

/-- `_to_wgs84` (quick_view.py:150-155): raises on a missing CRS, converts
when the CRS is not 4326, passes through when it already is. -/
def to_wgs84 (reproj : ℕ → ℕ → Point → Point) (gdf : GeoDataFrame) :
    Except String GeoDataFrame :=
  match gdf.crs with
  | none => Except.error "Cannot convert to WGS84; missing CRS"
  | some e =>
      if e ≠ 4326 then Except.ok (to_crs reproj gdf e 4326)
      else Except.ok gdf

/-- `center = [(miny + maxy) / 2, (minx + maxx) / 2]`
(quick_view.py:207-208): the midpoint of a frame's bounds as (latitude,
longitude). -/
def centerOfBounds (w : GeoDataFrame) : ℚ × ℚ :=
  let b := totalBounds w
  ((b.miny + b.maxy) / 2, (b.minx + b.maxx) / 2)

/-- The map-center computation of `export_folium_map` (quick_view.py:198-208):
the first non-empty layer of the tuple `(trees, parcels, streets, greens,
buildings)` becomes the reference layer; no reference raises the no-data
error; otherwise the reference is reprojected with `_to_wgs84` and the
center is the midpoint of its bounds. -/
def computeCenter (reproj : ℕ → ℕ → Point → Point)
    (trees parcels buildings streets greens : GeoDataFrame) :
    Except String (ℚ × ℚ) :=
  match [trees, parcels, streets, greens, buildings].find? (fun c => !c.empty) with
  | none => Except.error "No vector data available to center map"
  | some ref => (to_wgs84 reproj ref).map centerOfBounds

/-- The per-file loading of `export_folium_map` (quick_view.py:189-193):
`_load_vector(path) if path.exists() else gpd.GeoDataFrame(geometry=[])`. -/
def loadOrEmpty (reproj : ℕ → ℕ → Point → Point) (o : Option GeoDataFrame) :
    GeoDataFrame × List String :=
  match o with
  | some g => load_vector reproj g
  | none => (emptyGDF, [])

/-- The tree layer of `export_folium_map` after the sampling policy of
quick_view.py:195-196. -/
def exportTreeLayer (reproj : ℕ → ℕ → Point → Point) (tree : Option GeoDataFrame)
    (max_trees : ℕ) : GeoDataFrame :=
  applyTreeSampling max_trees (loadOrEmpty reproj tree).1

/-- `export_folium_map` up to the map-center computation
(quick_view.py:182-208): loads the five layers (absent file ⇒ empty frame),
samples the trees, computes the center. -/
def export_center (reproj : ℕ → ℕ → Point → Point)
    (tree parcel building street green : Option GeoDataFrame) (max_trees : ℕ) :
    Except String (ℚ × ℚ) :=
  let trees := exportTreeLayer reproj tree max_trees
  let parcels := (loadOrEmpty reproj parcel).1
  let buildings := (loadOrEmpty reproj building).1
  let streets := (loadOrEmpty reproj street).1
  let greens := (loadOrEmpty reproj green).1
  computeCenter reproj trees parcels buildings streets greens

/-- Spec-side restatement of the centering priority: "the first non-empty
layer among a fixed priority order (trees, parcels, streets, greens,
buildings)", written as the spec enumerates it, to be compared with the
loop in `computeCenter`. -/
def firstNonEmptySpec (trees parcels streets greens buildings : GeoDataFrame) :
    Option GeoDataFrame :=
  if ¬trees.empty then some trees
  else if ¬parcels.empty then some parcels
  else if ¬streets.empty then some streets
  else if ¬greens.empty then some greens
  else if ¬buildings.empty then some buildings
  else none

end InteractiveComposer

section Sanitizer

/-- Two-digit zero padding used by Python's datetime rendering. -/
def pad2 (n : ℕ) : String := if n < 10 then "0" ++ toString n else toString n

/-- `YYYY-MM-DD` date part shared by `str()` and `isoformat()`. -/
def dateStr (y mo d : ℕ) : String :=
  toString y ++ "-" ++ pad2 mo ++ "-" ++ pad2 d

/-- `HH:MM:SS` time part shared by `str()` and `isoformat()`. -/
def timeStr (h mi s : ℕ) : String :=
  pad2 h ++ ":" ++ pad2 mi ++ ":" ++ pad2 s

/-- `str(pd.Timestamp(...))`: date and time separated by a SPACE. -/
def pyStrDatetime (y mo d h mi s : ℕ) : String :=
  dateStr y mo d ++ " " ++ timeStr h mi s

/-- `pd.Timestamp(...).isoformat()` / `datetime.isoformat()`: date and
time separated by `T` (ISO-8601). -/
def isoDatetime (y mo d h mi s : ℕ) : String :=
  dateStr y mo d ++ "T" ++ timeStr h mi s

/-- `str(pd.Timedelta(...))`, e.g. `1 days 00:00:10`. -/
def pyStrTimedelta (d s : ℕ) : String :=
  toString d ++ " days " ++ timeStr (s / 3600) (s % 3600 / 60) (s % 60)

/-- Python `str()` of a scalar value, the element-wise effect of
`Series.astype(str)`. -/
def pyStr : Value → String
  | Value.vDatetime y mo d h mi s => pyStrDatetime y mo d h mi s
  | Value.vTimedelta d s => pyStrTimedelta d s
  | Value.vStr s => s
  | Value.vInt n => toString n
  | Value.vNone => "None"

/-- The per-column body of the loop in `_sanitize_attributes`
(quick_view.py:164-170): a datetime64/timedelta64 column goes through
`astype(str)` (Python `str()` of each element); any other column has its
`datetime`/`Timestamp` instances replaced by their `isoformat()` string,
other values untouched. -/
def sanitizeColumn (c : Column) : Column :=
  if c.dtype = Dtype.datetime64 ∨ c.dtype = Dtype.timedelta64 then
    { c with dtype := Dtype.objectDtype
             values := c.values.map (fun v => Value.vStr (pyStr v)) }
  else
    { c with values := c.values.map (fun v =>
        match v with
        | Value.vDatetime y mo d h mi s => Value.vStr (isoDatetime y mo d h mi s)
        | w => w) }

/-- The keep-columns selection of `_sanitize_attributes`
(quick_view.py:161-163): `keep_cols` is filtered to existing non-geometry
columns and the frame is reindexed to `[geometry] + keep_cols` (the
geometry column is a separate field of the model, so it is kept
implicitly, as `gdf[[gdf.geometry.name] + keep_cols]` keeps it). -/
def selectCols (g : GeoDataFrame) (keep : Option (List String)) : GeoDataFrame :=
  match keep with
  | none => g
  | some ks =>
      { g with columns := ks.filterMap (fun k =>
          if k = g.geometryName then none
          else g.columns.find? (fun c => c.name == k)) }

/-- `_sanitize_attributes` (quick_view.py:158-171) as a pure function on
the frame value: select columns, then sanitize every non-geometry column
(the loop skips the geometry column; here geometry is a separate field). -/
def sanitize_attributes (g : GeoDataFrame) (keep : Option (List String)) :
    GeoDataFrame :=
  let g1 := selectCols g keep
  { g1 with columns := g1.columns.map sanitizeColumn }

end Sanitizer

section SanitizerHeap

/-- A heap of frame objects; Python variables are references (indices)
into it. -/
abbrev Heap := List GeoDataFrame

/-- Allocate a fresh frame object, returning the heap and the new
reference. -/
def heapAlloc (h : Heap) (g : GeoDataFrame) : Heap × ℕ := (h ++ [g], h.length)

/-- Read the frame a reference points to. -/
def heapGet (h : Heap) (r : ℕ) : GeoDataFrame := h.getD r emptyGDF

/-- The in-place column-assignment loop of `_sanitize_attributes`
(quick_view.py:164-170): `gdf[col] = ...` mutates the frame object bound
to `gdf` (reference `r`), one column per iteration, iterating over the
column list as it stood before the loop. -/
def sanitizeColumnsLoop (h : Heap) (r : ℕ) : Heap :=
  (heapGet h r).columns.foldl
    (fun h1 c =>
      let cur := heapGet h1 r
      h1.set r { cur with columns := cur.columns.map (fun c2 =>
        if c2.name = c.name then sanitizeColumn c2 else c2) })
    h

/-- `_sanitize_attributes` with Python object semantics made explicit:
`gdf = gdf.copy()` allocates a fresh object (quick_view.py:160);
`gdf = gdf[[...] + keep_cols]` allocates another and rebinds
(quick_view.py:163); the column loop then mutates the bound object in
place.  Returns the final heap and the reference to the result. -/
def run_sanitize_attributes (h : Heap) (r : ℕ) (keep : Option (List String)) :
    Heap × ℕ :=
  let a1 := heapAlloc h (heapGet h r)
  let a2 :=
    match keep with
    | none => a1
    | some _ => heapAlloc a1.1 (selectCols (heapGet a1.1 a1.2) keep)
  (sanitizeColumnsLoop a2.1 a2.2, a2.2)

end SanitizerHeap

section SpecSide

/-- The five layers of `export_folium_map` in the centering priority order
`(trees, parcels, streets, greens, buildings)` of quick_view.py:200, after
loading and tree sampling. -/
def exportLayers (reproj : ℕ → ℕ → Point → Point)
    (tree parcel building street green : Option GeoDataFrame) (max_trees : ℕ) :
    List GeoDataFrame :=
  [exportTreeLayer reproj tree max_trees,
   (loadOrEmpty reproj parcel).1,
   (loadOrEmpty reproj street).1,
   (loadOrEmpty reproj green).1,
   (loadOrEmpty reproj building).1]

/-- The frame `_to_wgs84` would return for a layer that has a CRS (the
total function behind the non-error branches of `to_wgs84`). -/
def wgs84Of (reproj : ℕ → ℕ → Point → Point) (g : GeoDataFrame) : GeoDataFrame :=
  match g.crs with
  | some e => if e ≠ 4326 then to_crs reproj g e 4326 else g
  | none => g

/-- Envelope of two boxes. -/
def boxJoin (a b : Box) : Box :=
  ⟨min a.minx b.minx, min a.miny b.miny, max a.maxx b.maxx, max a.maxy b.maxy⟩

/-- `a` fits inside `b`. -/
def boxLe (a b : Box) : Prop :=
  b.minx ≤ a.minx ∧ b.miny ≤ a.miny ∧ a.maxx ≤ b.maxx ∧ a.maxy ≤ b.maxy

/-- A (latitude, longitude) pair lies inside a box. -/
def inBox (c : ℚ × ℚ) (b : Box) : Prop :=
  b.miny ≤ c.1 ∧ c.1 ≤ b.maxy ∧ b.minx ≤ c.2 ∧ c.2 ≤ b.maxx

/-- The union bounding box of a list of boxes (`none` for no boxes). -/
def unionBoxes : List Box → Option Box
  | [] => none
  | b :: bs => some (bs.foldl boxJoin b)

/-- Spec-side: the WGS84 bounding boxes of the available layers — the
non-empty layers that carry a CRS (the ones `_to_wgs84` can place
geographically). -/
def availableWgs84Boxes (reproj : ℕ → ℕ → Point → Point)
    (layers : List GeoDataFrame) : List Box :=
  (layers.filter (fun l => !l.empty && l.crs.isSome)).map
    (fun l => totalBounds (wgs84Of reproj l))

/-- A concrete reprojection map (identity on coordinates) used to
instantiate the uninterpreted `reproj` parameter in witnesses and
counterexamples. -/
def idReproj : ℕ → ℕ → Point → Point := fun _ _ p => p

/-- A concrete one-point layer already in the working CRS. -/
def treeOK : GeoDataFrame :=
  ⟨some 25832, "geometry", [((3 : ℚ), (4 : ℚ))], []⟩

/-- A concrete non-empty layer with no CRS. -/
def treesNoCRS : GeoDataFrame :=
  ⟨none, "geometry", [((1 : ℚ), (2 : ℚ))], []⟩

/-- A concrete three-point layer (more rows than a cap of 2). -/
def threePts : GeoDataFrame :=
  ⟨some 25832, "geometry", [((0 : ℚ), (0 : ℚ)), ((1 : ℚ), (1 : ℚ)), ((2 : ℚ), (2 : ℚ))], []⟩

/-- A concrete frame with one datetime64-typed attribute column. -/
def dtFrame : GeoDataFrame :=
  ⟨some 25832, "geometry", [((0 : ℚ), (0 : ℚ))],
   [⟨"planted", Dtype.datetime64, [Value.vDatetime 2021 3 4 5 6 7]⟩]⟩

end SpecSide

section MosaicLemmas

theorem openPhase_sources (tifs : List Tile) : (openPhase tifs).2 = tifs := by
  induction tifs with
  | nil => rfl
  | cons t rest ih => simp [openPhase, ih]

theorem opened_notin_warnEvents (t : Tile) (i : ℕ) :
    Ev.opened i ∉ tileWarnEvents t := by
  unfold tileWarnEvents
  cases t.crs with
  | none => simp
  | some e => split <;> simp

theorem closed_notin_warnEvents (t : Tile) (i : ℕ) :
    Ev.closedHandle i ∉ tileWarnEvents t := by
  unfold tileWarnEvents
  cases t.crs with
  | none => simp
  | some e => split <;> simp

theorem closed_notin_openPhase (tifs : List Tile) (i : ℕ) :
    Ev.closedHandle i ∉ (openPhase tifs).1 := by
  induction tifs with
  | nil => simp [openPhase]
  | cons t rest ih =>
      simp only [openPhase, List.mem_cons, List.mem_append]
      push_neg
      exact ⟨by simp, closed_notin_warnEvents t i, ih⟩

theorem opened_notin_closeMap (tifs : List Tile) (i : ℕ) :
    Ev.opened i ∉ tifs.map (fun s => Ev.closedHandle s.id) := by
  simp [List.mem_map]

theorem count_opened_openPhase (tifs : List Tile) (i : ℕ) :
    (openPhase tifs).1.count (Ev.opened i) = tifs.countP (fun t => t.id == i) := by
  induction tifs with
  | nil => rfl
  | cons t rest ih =>
      have hw : (tileWarnEvents t).count (Ev.opened i) = 0 :=
        List.count_eq_zero.mpr (opened_notin_warnEvents t i)
      simp [openPhase, List.count_cons, List.count_append, hw, ih,
        List.countP_cons]

theorem count_closed_closeMap (tifs : List Tile) (i : ℕ) :
    (tifs.map (fun s => Ev.closedHandle s.id)).count (Ev.closedHandle i)
      = tifs.countP (fun t => t.id == i) := by
  induction tifs with
  | nil => rfl
  | cons t rest ih =>
      simp [List.count_cons, ih, List.countP_cons]

end MosaicLemmas

/-- C2: for a non-empty list of tiles, `_orthophoto_mosaic` includes every
tile in the merge even when its CRS is missing or mismatched (warnings
only), and the event trace closes exactly the handles it opened: for every
handle id the number of close events equals the number of open events, and
each tile's close event is present. -/
theorem C2_mosaic_closes_all_handles (tifs : List Tile) (h : tifs ≠ []) :
    (orthophoto_mosaic tifs).1 = some (rasterMerge tifs)
    ∧ (∀ t ∈ tifs, Ev.closedHandle t.id ∈ (orthophoto_mosaic tifs).2)
    ∧ ∀ i : ℕ, (orthophoto_mosaic tifs).2.count (Ev.closedHandle i)
        = (orthophoto_mosaic tifs).2.count (Ev.opened i) := by
  have hsrc : (openPhase tifs).2 = tifs := openPhase_sources tifs
  have hne : tifs.isEmpty = false := by
    cases tifs with
    | nil => exact absurd rfl h
    | cons a l => rfl
  have hmain : orthophoto_mosaic tifs
      = (some (rasterMerge tifs),
         (openPhase tifs).1 ++ tifs.map (fun s => Ev.closedHandle s.id)) := by
    simp only [orthophoto_mosaic, hsrc, hne, Bool.false_eq_true, if_false]
  rw [hmain]
  refine ⟨rfl, ?_, ?_⟩
  · intro t ht
    simp only [List.mem_append, List.mem_map]
    exact Or.inr ⟨t, ht, rfl⟩
  · intro i
    rw [List.count_append, List.count_append]
    rw [count_closed_closeMap tifs i, count_opened_openPhase tifs i]
    rw [List.count_eq_zero.mpr (closed_notin_openPhase tifs i),
      List.count_eq_zero.mpr (opened_notin_closeMap tifs i)]
    omega

/-- C2 witness: two tiles, one with the working CRS and one with a
mismatched CRS; both are merged and both handles are closed. -/
theorem C2_witness :
    ([⟨0, some 25832⟩, ⟨1, some 31467⟩] : List Tile) ≠ []
    ∧ (orthophoto_mosaic [⟨0, some 25832⟩, ⟨1, some 31467⟩]).1
        = some (rasterMerge [⟨0, some 25832⟩, ⟨1, some 31467⟩]) :=
  ⟨by decide,
   (C2_mosaic_closes_all_handles [⟨0, some 25832⟩, ⟨1, some 31467⟩] (by decide)).1⟩

/-- C8: `_orthophoto_mosaic` on an empty iterable returns the `None`
sentinel, and its trace contains no open event (zero handzles opened). -/
theorem C8_mosaic_empty_input :
    orthophoto_mosaic [] = (none, [])
    ∧ ∀ i : ℕ, Ev.opened i ∉ (orthophoto_mosaic []).2 := by
  refine ⟨rfl, ?_⟩
  intro i
  simp [orthophoto_mosaic, openPhase]

/-- C1: `_load_vector` leaves a layer already in EPSG:25832 untouched
(identity on CRS, geometry and attributes), reprojects a layer with any
other known CRS to EPSG:25832, and passes a CRS-less layer through
unchanged while printing the missing-CRS warning. -/
theorem C1_load_vector_normalization (r : ℕ → ℕ → Point → Point)
    (g : GeoDataFrame) (e : ℕ) (he : e ≠ TARGET_EPSG) :
    (load_vector r { g with crs := some TARGET_EPSG }).1
        = { g with crs := some TARGET_EPSG }
    ∧ (load_vector r { g with crs := some e }).1.crs = some TARGET_EPSG
    ∧ (load_vector r { g with crs := none }).1 = { g with crs := none }
    ∧ "[warn] missing CRS on layer" ∈ (load_vector r { g with crs := none }).2 := by
  unfold load_vector
  refine ⟨by simp, ?_, by simp, by simp⟩
  simp [he, to_crs]

/-- C1 witness: a layer in EPSG:4326 (≠ 25832) comes back with the target
CRS. -/
theorem C1_witness :
    (4326 ≠ TARGET_EPSG)
    ∧ (load_vector idReproj { treeOK with crs := some 4326 }).1.crs
        = some TARGET_EPSG :=
  ⟨by decide, (C1_load_vector_normalization idReproj treeOK 4326 (by decide)).2.1⟩

/-- C9: a cap of 0 is falsy in `if max_trees and len(trees) > max_trees`,
so sampling is disabled entirely; the tree layer passes through unsampled
in the static composer (`plot_layers`) and the interactive composer
(`export_folium_map`) alike. -/
theorem C9_cap_zero_disables_sampling :
    (∀ g : GeoDataFrame, applyTreeSampling 0 g = g)
    ∧ (∀ (r : ℕ → ℕ → Point → Point) (t : GeoDataFrame),
        treeStep r (some t) 0 = ([(load_vector r t).1], (load_vector r t).2))
    ∧ (∀ (r : ℕ → ℕ → Point → Point) (o : Option GeoDataFrame),
        exportTreeLayer r o 0 = (loadOrEmpty r o).1) := by
  refine ⟨?_, ?_, ?_⟩ <;> intros <;>
    simp [applyTreeSampling, treeStep, exportTreeLayer]

section SamplingLemmas

theorem pickAux_length : ∀ (n seed : ℕ) (avail : List ℕ),
    (pickAux seed n avail).length = min n avail.length := by
  intro n
  induction n with
  | zero => intro seed avail; simp [pickAux]
  | succ n ih =>
      intro seed avail
      unfold pickAux
      cases havail : avail.isEmpty with
      | true =>
          have h0 : avail = [] := List.isEmpty_iff.mp havail
          simp [h0]
      | false =>
          have hlen : 0 < avail.length := by
            cases avail with
            | nil => simp at havail
            | cons a l => simp
          have hk : lcg seed % avail.length < avail.length := Nat.mod_lt _ hlen
          simp only [Bool.false_eq_true, if_false, List.length_cons]
          rw [ih, List.length_eraseIdx_of_lt hk]
          omega

theorem pickAux_mem : ∀ (n seed : ℕ) (avail : List ℕ) (i : ℕ),
    i ∈ pickAux seed n avail → i ∈ avail := by
  intro n
  induction n with
  | zero => intro seed avail i h; simp [pickAux] at h
  | succ n ih =>
      intro seed avail i h
      unfold pickAux at h
      cases havail : avail.isEmpty with
      | true => rw [havail] at h; simp at h
      | false =>
          rw [havail] at h
          simp only [Bool.false_eq_true, if_false] at h
          have hlen : 0 < avail.length := by
            cases avail with
            | nil => simp at havail
            | cons a l => simp
          have hk : lcg seed % avail.length < avail.length := Nat.mod_lt _ hlen
          rcases List.mem_cons.mp h with h1 | h2
          · have hmem : avail.getD (lcg seed % avail.length) 0 ∈ avail := by
              rw [List.getD_eq_getElem?_getD, List.getElem?_eq_getElem hk]
              simp [List.getElem_mem hk]
            exact h1 ▸ hmem
          · exact List.eraseIdx_subset _ _ (ih _ _ _ h2)

theorem pickIndices_length (seed n rows : ℕ) (h : n ≤ rows) :
    (pickIndices seed n rows).length = n := by
  unfold pickIndices
  rw [pickAux_length, List.length_range]
  omega

theorem pickIndices_lt (seed n rows i : ℕ) (h : i ∈ pickIndices seed n rows) :
    i < rows :=
  List.mem_range.mp (pickAux_mem n seed (List.range rows) i h)

theorem gdfSample_len (g : GeoDataFrame) (n seed : ℕ) (h : n ≤ g.len) :
    (gdfSample g n seed).len = n := by
  unfold gdfSample GeoDataFrame.len
  simp only [List.length_map]
  exact pickIndices_length seed n _ h

theorem gdfSample_subset (g : GeoDataFrame) (n seed : ℕ) (p : Point)
    (hp : p ∈ (gdfSample g n seed).geometry) : p ∈ g.geometry := by
  unfold gdfSample at hp
  simp only [List.mem_map] at hp
  obtain ⟨i, hi, hpe⟩ := hp
  have hlt : i < g.geometry.length := pickIndices_lt seed n g.len i hi
  have hmem : g.geometry.getD i default ∈ g.geometry := by
    rw [List.getD_eq_getElem?_getD, List.getElem?_eq_getElem hlt]
    simp [List.getElem_mem hlt]
  exact hpe ▸ hmem

end SamplingLemmas

/-- C5: with a positive cap, the fixed-seed sampling policy returns
exactly `cap` rows drawn from the input when the layer exceeds the cap,
and the layer itself when it does not; the policy is a pure function of
the layer (fixed `random_state=42`), so repeated invocations on the same
input coincide definitionally; and both composers apply this same policy
to their tree layer (`plot_layers` via `treeStep`, `export_folium_map`
via `exportTreeLayer`). -/
theorem C5_sampling (cap : ℕ) (g : GeoDataFrame) (hcap : 0 < cap) :
    (g.len > cap → (applyTreeSampling cap g).len = cap
      ∧ ∀ p ∈ (applyTreeSampling cap g).geometry, p ∈ g.geometry)
    ∧ (g.len ≤ cap → applyTreeSampling cap g = g)
    ∧ (∀ (r : ℕ → ℕ → Point → Point) (t : GeoDataFrame),
        (treeStep r (some t) cap).1 = [applyTreeSampling cap (load_vector r t).1])
    ∧ (∀ (r : ℕ → ℕ → Point → Point) (o : Option GeoDataFrame),
        exportTreeLayer r o cap = applyTreeSampling cap (loadOrEmpty r o).1) := by
  refine ⟨?_, ?_, fun r t => rfl, fun r o => rfl⟩
  · intro hlen
    have hcond : cap ≠ 0 ∧ g.len > cap := ⟨by omega, hlen⟩
    unfold applyTreeSampling
    rw [if_pos hcond]
    exact ⟨gdfSample_len g cap 42 (Nat.le_of_lt hlen),
      fun p hp => gdfSample_subset g cap 42 p hp⟩
  · intro hlen
    unfold applyTreeSampling
    rw [if_neg]
    omega

/-- C5 witness: a three-row layer sampled with cap 2 yields exactly
2 rows. -/
theorem C5_witness : 0 < 2 ∧ (applyTreeSampling 2 threePts).len = 2 :=
  ⟨by decide, ((C5_sampling 2 threePts (by decide)).1 (by decide)).1⟩

/-- C6 counterexample: with the tree file present (a clean EPSG:25832
layer) and the parcel, building and street files all absent,
`plot_layers` prints no warning at all — an absent parcel, building or
street file is skipped silently (quick_view.py:115-123 have no `else`
branch), contradicting the claim that every absent layer file among the
four produces a warning. -/
theorem C6_counterexample :
    (plot_layers_collect idReproj (some treeOK) none none none 0).2 = [] := by
  decide

/-- C6 amended: only an absent tree file produces a warning
(quick_view.py:112-113); absent parcel, building and street files are
skipped silently, contributing neither a layer nor a warning. -/
theorem C6_missing_file_warnings (r : ℕ → ℕ → Point → Point)
    (tree parcel building street : Option GeoDataFrame) (cap : ℕ)
    (htree : tree = none) :
    "[warn] missing tree layer"
        ∈ (plot_layers_collect r tree parcel building street cap).2
    ∧ parcelStep r none = ([], [])
    ∧ buildingStep r none = ([], [])
    ∧ streetStep r none = ([], []) := by
  subst htree
  refine ⟨?_, rfl, rfl, rfl⟩
  simp [plot_layers_collect, treeStep]

/-- C6 witness: all four files absent — the missing-tree warning is
printed. -/
theorem C6_witness :
    "[warn] missing tree layer"
      ∈ (plot_layers_collect idReproj none none none none 0).2 :=
  (C6_missing_file_warnings idReproj none none none none 0 rfl).1

/-- C7: the map center of `export_folium_map` is the bounds midpoint of the
first non-empty layer in the fixed priority order (trees, parcels, streets,
greens, buildings) after reprojection to EPSG:4326 — the code's
find-first loop agrees with the spec's enumeration `firstNonEmptySpec` —
and `_to_wgs84` of a layer with no CRS fails with the explicit
missing-CRS error instead of guessing. -/
theorem C7_center_priority (r : ℕ → ℕ → Point → Point)
    (trees parcels buildings streets greens : GeoDataFrame)
    (g : GeoDataFrame) (hg : g.crs = none) :
    computeCenter r trees parcels buildings streets greens
      = (match firstNonEmptySpec trees parcels streets greens buildings with
         | none => Except.error "No vector data available to center map"
         | some l => (to_wgs84 r l).map centerOfBounds)
    ∧ to_wgs84 r g = Except.error "Cannot convert to WGS84; missing CRS" := by
  constructor
  · unfold computeCenter firstNonEmptySpec
    cases h1 : trees.empty <;> cases h2 : parcels.empty <;>
      cases h3 : streets.empty <;> cases h4 : greens.empty <;>
      cases h5 : buildings.empty <;>
      simp [List.find?, h1, h2, h3, h4, h5]
  · simp [to_wgs84, hg]

/-- C7 witness: the missing-CRS branch applied to a concrete CRS-less
layer. -/
theorem C7_witness :
    to_wgs84 idReproj treesNoCRS
      = Except.error "Cannot convert to WGS84; missing CRS" :=
  (C7_center_priority idReproj emptyGDF emptyGDF emptyGDF emptyGDF emptyGDF
    treesNoCRS rfl).2

/-- C3 counterexample: the tree layer is present and non-empty but has no
CRS; `_load_vector` passes it through with a warning, the centering then
raises the missing-CRS error — so the composer does NOT succeed although
at least one of the five layers is non-empty, refuting the claim's
success half (and the error raised is not the "no data" error). -/
theorem C3_counterexample :
    export_center idReproj (some treesNoCRS) none none none none 5000
        = Except.error "Cannot convert to WGS84; missing CRS"
    ∧ (exportTreeLayer idReproj (some treesNoCRS) 5000).empty = false :=
  ⟨rfl, rfl⟩

section BoundsLemmas

theorem foldl_min_le_init (l : List ℚ) (a : ℚ) : l.foldl min a ≤ a := by
  induction l generalizing a with
  | nil => simp
  | cons x xs ih =>
      calc (x :: xs).foldl min a = xs.foldl min (min a x) := rfl
        _ ≤ min a x := ih _
        _ ≤ a := min_le_left _ _

theorem foldl_min_le_mem (l : List ℚ) (a x : ℚ) (h : x ∈ l) :
    l.foldl min a ≤ x := by
  induction l generalizing a with
  | nil => cases h
  | cons y ys ih =>
      rcases List.mem_cons.mp h with rfl | hmem
      · calc (x :: ys).foldl min a = ys.foldl min (min a x) := rfl
          _ ≤ min a x := foldl_min_le_init ys _
          _ ≤ x := min_le_right _ _
      · exact ih (min a y) hmem

theorem listMin_le (l : List ℚ) (x : ℚ) (h : x ∈ l) : listMin l ≤ x := by
  cases l with
  | nil => cases h
  | cons y ys =>
      rcases List.mem_cons.mp h with rfl | hmem
      · exact foldl_min_le_init ys x
      · exact foldl_min_le_mem ys y x hmem

theorem le_foldl_max_init (l : List ℚ) (a : ℚ) : a ≤ l.foldl max a := by
  induction l generalizing a with
  | nil => simp
  | cons x xs ih =>
      calc a ≤ max a x := le_max_left _ _
        _ ≤ xs.foldl max (max a x) := ih _
        _ = (x :: xs).foldl max a := rfl

theorem le_foldl_max_mem (l : List ℚ) (a x : ℚ) (h : x ∈ l) :
    x ≤ l.foldl max a := by
  induction l generalizing a with
  | nil => cases h
  | cons y ys ih =>
      rcases List.mem_cons.mp h with rfl | hmem
      · calc x ≤ max a x := le_max_right _ _
          _ ≤ ys.foldl max (max a x) := le_foldl_max_init ys _
          _ = (x :: ys).foldl max a := rfl
      · exact ih (max a y) hmem

theorem le_listMax (l : List ℚ) (x : ℚ) (h : x ∈ l) : x ≤ listMax l := by
  cases l with
  | nil => cases h
  | cons y ys =>
      rcases List.mem_cons.mp h with rfl | hmem
      · exact le_foldl_max_init ys x
      · exact le_foldl_max_mem ys y x hmem

theorem listMin_le_listMax (l : List ℚ) (h : l ≠ []) :
    listMin l ≤ listMax l := by
  cases l with
  | nil => exact absurd rfl h
  | cons x xs =>
      exact le_trans (listMin_le _ x (List.mem_cons_self _ _))
        (le_listMax _ x (List.mem_cons_self _ _))

theorem centerOfBounds_inBox (w : GeoDataFrame) (hw : w.geometry ≠ []) :
    inBox (centerOfBounds w) (totalBounds w) := by
  have hxs : w.geometry.map Prod.fst ≠ [] := by simp [hw]
  have hys : w.geometry.map Prod.snd ≠ [] := by simp [hw]
  have h1 := listMin_le_listMax _ hxs
  have h2 := listMin_le_listMax _ hys
  unfold centerOfBounds inBox totalBounds at *
  refine ⟨by simp; linarith, by simp; linarith, by simp; linarith, by simp; linarith⟩

theorem boxLe_refl (b : Box) : boxLe b b :=
  ⟨le_refl _, le_refl _, le_refl _, le_refl _⟩

theorem boxLe_trans {a b c : Box} (h1 : boxLe a b) (h2 : boxLe b c) :
    boxLe a c := by
  obtain ⟨p1, p2, p3, p4⟩ := h1
  obtain ⟨q1, q2, q3, q4⟩ := h2
  exact ⟨le_trans q1 p1, le_trans q2 p2, le_trans p3 q3, le_trans p4 q4⟩

theorem boxLe_join_left (a b : Box) : boxLe a (boxJoin a b) :=
  ⟨min_le_left _ _, min_le_left _ _, le_max_left _ _, le_max_left _ _⟩

theorem boxLe_join_right (a b : Box) : boxLe b (boxJoin a b) :=
  ⟨min_le_right _ _, min_le_right _ _, le_max_right _ _, le_max_right _ _⟩

theorem boxLe_foldl_join (bs : List Box) :
    ∀ (a x : Box), (x = a ∨ x ∈ bs) → boxLe x (bs.foldl boxJoin a) := by
  induction bs with
  | nil =>
      intro a x h
      rcases h with rfl | h
      · exact boxLe_refl _
      · cases h
  | cons b rest ih =>
      intro a x h
      have hstep : boxLe (boxJoin a b) (rest.foldl boxJoin (boxJoin a b)) :=
        ih (boxJoin a b) (boxJoin a b) (Or.inl rfl)
      rcases h with rfl | h
      · exact boxLe_trans (boxLe_join_left x b) hstep
      · rcases List.mem_cons.mp h with rfl | hmem
        · exact boxLe_trans (boxLe_join_right a x) hstep
        · exact ih (boxJoin a b) x (Or.inr hmem)

theorem mem_unionBoxes (bs : List Box) (b : Box) (hb : b ∈ bs) :
    ∃ ub, unionBoxes bs = some ub ∧ boxLe b ub := by
  cases bs with
  | nil => cases hb
  | cons b0 rest =>
      refine ⟨rest.foldl boxJoin b0, rfl, ?_⟩
      rcases List.mem_cons.mp hb with rfl | h
      · exact boxLe_foldl_join rest b b (Or.inl rfl)
      · exact boxLe_foldl_join rest b0 b (Or.inr h)

theorem inBox_mono (c : ℚ × ℚ) (b ub : Box) (h1 : inBox c b)
    (h2 : boxLe b ub) : inBox c ub := by
  obtain ⟨a1, a2, a3, a4⟩ := h1
  obtain ⟨l1, l2, l3, l4⟩ := h2
  exact ⟨le_trans l2 a1, le_trans a2 l4, le_trans l1 a3, le_trans a4 l3⟩

theorem to_wgs84_of_some (r : ℕ → ℕ → Point → Point) (g : GeoDataFrame)
    (e : ℕ) (hg : g.crs = some e) :
    to_wgs84 r g = Except.ok (wgs84Of r g) := by
  simp only [to_wgs84, wgs84Of, hg]
  split <;> rfl

theorem wgs84Of_geometry_ne (r : ℕ → ℕ → Point → Point) (g : GeoDataFrame)
    (h : g.geometry ≠ []) : (wgs84Of r g).geometry ≠ [] := by
  cases hc : g.crs with
  | none => simp only [wgs84Of, hc]; exact h
  | some e =>
      simp only [wgs84Of, hc]
      by_cases h4 : e ≠ 4326
      · simp [h4, to_crs, h]
      · simp only [if_neg h4]; exact h

theorem export_center_eq (r : ℕ → ℕ → Point → Point)
    (tree parcel building street green : Option GeoDataFrame) (cap : ℕ) :
    export_center r tree parcel building street green cap
      = match (exportLayers r tree parcel building street green cap).find?
            (fun c => !c.empty) with
        | none => Except.error "No vector data available to center map"
        | some ref => (to_wgs84 r ref).map centerOfBounds := rfl

end BoundsLemmas

/-- C3 corrected: the interactive composer raises the "no data" error iff
all five loaded layers are empty; and when the first non-empty layer (in
the centering priority order) has a CRS, it succeeds and the computed
center lies within the union bounding box of the available layers (the
non-empty layers with a CRS, in WGS84).  The CRS hypothesis is forced by
the counterexample: a CRS-less reference layer raises the missing-CRS
error instead of succeeding. -/
theorem C3_center_no_data (r : ℕ → ℕ → Point → Point)
    (tree parcel building street green : Option GeoDataFrame) (cap : ℕ) :
    (export_center r tree parcel building street green cap
        = Except.error "No vector data available to center map"
      ↔ ∀ l ∈ exportLayers r tree parcel building street green cap, l.empty)
    ∧ (∀ ref : GeoDataFrame,
        (exportLayers r tree parcel building street green cap).find?
            (fun c => !c.empty) = some ref →
        ref.crs.isSome →
        ∃ c, export_center r tree parcel building street green cap = Except.ok c
          ∧ ∃ ub, unionBoxes (availableWgs84Boxes r
                (exportLayers r tree parcel building street green cap)) = some ub
              ∧ inBox c ub) := by
  have heq := export_center_eq r tree parcel building street green cap
  constructor
  · constructor
    · intro herr l hl
      cases hfind : (exportLayers r tree parcel building street green cap).find?
          (fun c => !c.empty) with
      | none =>
          have := List.find?_eq_none.mp hfind l hl
          simpa using this
      | some ref =>
          rw [heq, hfind] at herr
          cases hcrs : ref.crs with
          | none =>
              simp [to_wgs84, hcrs, Except.map] at herr
          | some e =>
              simp [to_wgs84_of_some r ref e hcrs, Except.map] at herr
    · intro hall
      have hfind : (exportLayers r tree parcel building street green cap).find?
          (fun c => !c.empty) = none :=
        List.find?_eq_none.mpr (fun x hx => by simp [hall x hx])
      rw [heq, hfind]
  · intro ref hfind hcrs
    obtain ⟨e, he⟩ := Option.isSome_iff_exists.mp hcrs
    have hrefp := List.find?_some hfind
    have hrefne : ref.geometry ≠ [] := by
      have hie : ref.geometry.isEmpty = false := by
        simpa [GeoDataFrame.empty] using hrefp
      intro hc
      simp [hc] at hie
    refine ⟨centerOfBounds (wgs84Of r ref), ?_, ?_⟩
    · rw [heq, hfind]
      simp [to_wgs84_of_some r ref e he, Except.map]
    · have hwne : (wgs84Of r ref).geometry ≠ [] := wgs84Of_geometry_ne r ref hrefne
      have hin : inBox (centerOfBounds (wgs84Of r ref))
          (totalBounds (wgs84Of r ref)) := centerOfBounds_inBox _ hwne
      have hmemL : ref ∈ exportLayers r tree parcel building street green cap :=
        List.mem_of_find?_eq_some hfind
      have hmemF : ref ∈ (exportLayers r tree parcel building street green cap).filter
          (fun l => !l.empty && l.crs.isSome) :=
        List.mem_filter.mpr ⟨hmemL, by simp [hrefp, hcrs]⟩
      have hbox : totalBounds (wgs84Of r ref)
          ∈ availableWgs84Boxes r (exportLayers r tree parcel building street green cap) := by
        unfold availableWgs84Boxes
        exact List.mem_map_of_mem _ hmemF
      obtain ⟨ub, hub, hle⟩ := mem_unionBoxes _ _ hbox
      exact ⟨ub, hub, inBox_mono _ _ _ hin hle⟩

/-- C3 witness: one non-empty tree layer in the working CRS; the composer
succeeds and the center lies inside the union bounding box. -/
theorem C3_witness :
    ∃ c, export_center idReproj (some treeOK) none none none none 0 = Except.ok c
      ∧ ∃ ub, unionBoxes (availableWgs84Boxes idReproj
            (exportLayers idReproj (some treeOK) none none none none 0)) = some ub
          ∧ inBox c ub :=
  (C3_center_no_data idReproj (some treeOK) none none none none 0).2
    treeOK (by decide) (by decide)

/-- C4 counterexample: a datetime64-typed column goes through
`astype(str)` (quick_view.py:167-168), whose element string form separates
date and time with a space; the ISO-8601 representation (`isoformat()`)
uses `T`.  For the value 2021-03-04 05:06:07 the sanitized output is the
string "2021-03-04 05:06:07", which is not equal to its ISO-8601
representation "2021-03-04T05:06:07" — refuting "converted to a string
equal to its ISO-8601 representation" for datetime64-typed columns. -/
theorem C4_counterexample :
    ((sanitize_attributes dtFrame none).columns.getD 0 default).values
        = [Value.vStr "2021-03-04 05:06:07"]
    ∧ pyStrDatetime 2021 3 4 5 6 7 = "2021-03-04 05:06:07"
    ∧ isoDatetime 2021 3 4 5 6 7 = "2021-03-04T05:06:07"
    ∧ pyStrDatetime 2021 3 4 5 6 7 ≠ isoDatetime 2021 3 4 5 6 7 := by
  refine ⟨rfl, rfl, rfl, by decide⟩

/-- C4 corrected: the geometry column is always present and unmodified and
the output columns are exactly the (possibly keep-filtered) input columns
mapped through `sanitizeColumn`; a datetime64-typed column is
string-coerced element-wise via `astype(str)` — Python's `str()` form with
a space separator, not ISO-8601 — while a `datetime`/`Timestamp` value
held in an object-typed column is replaced by its `isoformat()` (ISO-8601)
string. -/
theorem C4_sanitize_attributes (g : GeoDataFrame) (keep : Option (List String))
    (c : Column) (hdt : c.dtype = Dtype.datetime64)
    (c2 : Column) (hobj : c2.dtype = Dtype.objectDtype) :
    ((sanitize_attributes g keep).geometry = g.geometry
      ∧ (sanitize_attributes g keep).geometryName = g.geometryName)
    ∧ (sanitize_attributes g keep).columns
        = (selectCols g keep).columns.map sanitizeColumn
    ∧ (sanitizeColumn c).values = c.values.map (fun v => Value.vStr (pyStr v))
    ∧ (sanitizeColumn c2).values = c2.values.map (fun v =>
        match v with
        | Value.vDatetime y mo d h mi s => Value.vStr (isoDatetime y mo d h mi s)
        | w => w) := by
  refine ⟨⟨?_, ?_⟩, rfl, ?_, ?_⟩
  · cases keep <;> rfl
  · cases keep <;> rfl
  · unfold sanitizeColumn
    rw [if_pos (Or.inl hdt)]
  · unfold sanitizeColumn
    rw [if_neg (by simp [hobj])]

/-- C4 witness: one datetime64 column run through `sanitizeColumn`. -/
theorem C4_witness :
    (sanitizeColumn ⟨"planted", Dtype.datetime64, [Value.vDatetime 2021 3 4 5 6 7]⟩).values
      = ([Value.vDatetime 2021 3 4 5 6 7].map (fun v => Value.vStr (pyStr v))) :=
  (C4_sanitize_attributes dtFrame none
    ⟨"planted", Dtype.datetime64, [Value.vDatetime 2021 3 4 5 6 7]⟩ rfl
    ⟨"note", Dtype.objectDtype, []⟩ rfl).2.2.1

section HeapLemmas

theorem sanitizeColumnsLoop_getElem?_ne (h1 : Heap) (r i : ℕ) (hne : i ≠ r) :
    (sanitizeColumnsLoop h1 r)[i]? = h1[i]? := by
  unfold sanitizeColumnsLoop
  generalize (heapGet h1 r).columns = cols
  induction cols generalizing h1 with
  | nil => rfl
  | cons c cs ih =>
      simp only [List.foldl_cons]
      rw [ih]
      exact List.getElem?_set_ne (Ne.symm hne)

end HeapLemmas

/-- C10: `_sanitize_attributes` never mutates its input frame.  In the
explicit-heap model, `gdf = gdf.copy()` (quick_view.py:160) allocates a
fresh object and all subsequent column assignments mutate only that fresh
object (or the one allocated by the keep-columns reindexing), so after the
call every pre-existing heap cell — in particular the caller's input
frame — is unchanged. -/
theorem C10_sanitizer_no_mutation (h : Heap) (r : ℕ) (keep : Option (List String))
    (i : ℕ) (hi : i < h.length) :
    ((run_sanitize_attributes h r keep).1)[i]? = h[i]? := by
  unfold run_sanitize_attributes heapAlloc
  cases keep with
  | none =>
      show (sanitizeColumnsLoop (h ++ [heapGet h r]) h.length)[i]? = h[i]?
      rw [sanitizeColumnsLoop_getElem?_ne _ _ _ (Nat.ne_of_lt hi)]
      exact List.getElem?_append_left hi
  | some ks =>
      show (sanitizeColumnsLoop
          ((h ++ [heapGet h r]) ++ [selectCols (heapGet (h ++ [heapGet h r]) h.length) (some ks)])
          (h ++ [heapGet h r]).length)[i]? = h[i]?
      have hne : i ≠ (h ++ [heapGet h r]).length := by
        simp only [List.length_append, List.length_cons, List.length_nil]
        omega
      rw [sanitizeColumnsLoop_getElem?_ne _ _ _ hne]
      rw [List.getElem?_append_left (by
        simp only [List.length_append, List.length_cons, List.length_nil]
        omega)]
      exact List.getElem?_append_left hi

/-- C10 witness: sanitizing the frame stored at reference 0 leaves the
heap cell at reference 0 unchanged. -/
theorem C10_witness :
    0 < ([dtFrame] : Heap).length
    ∧ ((run_sanitize_attributes [dtFrame] 0 none).1)[0]? = ([dtFrame] : Heap)[0]? :=
  ⟨by decide, C10_sanitizer_no_mutation [dtFrame] 0 none 0 (by decide)⟩
